import Mathlib

/-!
Shallow embedding of the DPDK packet-capture core
(src/dpdk/dpdk_capture.h, src/dpdk/libdpdk_capture.c).

The C module keeps its session in four process-global variables
(`mbuf_pool`, `g_port_id`, `g_batch_size`, `force_quit`); we collect them
in a `DpdkState` structure and pass it explicitly.  Driver/hardware calls
(`rte_eal_init`, `rte_eth_rx_burst`, `rte_eth_stats_get`, ...) are
modelled by environment records that fix each call's outcome for the
duration of one API call; every embedded function additionally reports
which driver calls it issued, so that "aborts before step X" and
"attempts a hardware receive" are statable.  Machine integers are Int or
Nat with explicit `% 2^w` at the points where the C source converts
between widths.
-/

namespace DpdkCapture

/-- `MAX_PKT_BURST` from dpdk_capture.h. -/
def MAX_PKT_BURST : Int := 32

/-- `MAX_CORES` from dpdk_capture.h (declared, never used by the core). -/
def MAX_CORES : Int := 16

/-- SIGINT signal number. -/
def SIGINT : Int := 2

/-- SIGTERM signal number. -/
def SIGTERM : Int := 15

/-- The process-global session state of libdpdk_capture.c:
`static struct rte_mempool *mbuf_pool`, `static int g_port_id`,
`static int g_batch_size`, `static volatile sig_atomic_t force_quit`.
The mempool pointer is modelled as an optional abstract handle. -/
structure DpdkState where
  mbuf_pool : Option Nat
  g_port_id : Int
  g_batch_size : Int
  force_quit : Bool
  deriving Repr, DecidableEq

/-- The globals' static initializers: pool NULL, port 0,
batch size MAX_PKT_BURST, force_quit 0. -/
def initialState : DpdkState :=
  { mbuf_pool := none, g_port_id := 0, g_batch_size := MAX_PKT_BURST, force_quit := false }

/-- `signal_handler`: sets `force_quit` on SIGINT or SIGTERM. -/
def signal_handler (st : DpdkState) (signum : Int) : DpdkState :=
  if signum = SIGINT ∨ signum = SIGTERM then { st with force_quit := true } else st

/-- An mbuf as the capture path reads it: the packet-data pointer
(`rte_pktmbuf_mtod`) and the `data_len` field (a uint16 in hardware). -/
structure Mbuf where
  addr : Nat
  dataLen : Nat
  deriving Repr, DecidableEq

/-- `struct packet` from dpdk_capture.h: data pointer, uint16 length,
uint8 port, uint32 timestamp. -/
structure Packet where
  data : Nat
  length : Nat
  port : Nat
  timestamp : Nat
  deriving Repr, DecidableEq

/-- Driver environment for one `dpdk_capture_packets` call: the frames
currently available on queue 0 (`rte_eth_rx_burst` hands out a prefix of
them, never more than requested), and the cycle counter / counter
frequency returned by `rte_get_tsc_cycles` / `rte_get_tsc_hz`. -/
structure CaptureEnv where
  avail : List Mbuf
  tscCycles : Nat
  tscHz : Nat
  deriving Repr, DecidableEq

/-- Result of one `dpdk_capture_packets` call: the C return value, the
`packets[0..ret)` entries written to the caller's array, whether
`rte_eth_rx_burst` was reached, and the burst count passed to it
(0 when it was not reached). -/
structure CaptureResult where
  ret : Int
  written : List Packet
  rxBurstCalled : Bool
  rxBurstReq : Nat
  deriving Repr, DecidableEq

/-- The `capture_count` local of `dpdk_capture_packets`: the source's
ternary `(max_packets < g_batch_size) ? max_packets : g_batch_size`. -/
def capture_count (st : DpdkState) (max_packets : Int) : Int :=
  if max_packets < st.g_batch_size then max_packets else st.g_batch_size

/-- The burst count handed to `rte_eth_rx_burst`: `capture_count`
converted to the uint16 `nb_pkts` parameter (`% 2^16`). -/
def burstReq (st : DpdkState) (max_packets : Int) : Nat :=
  (capture_count st max_packets % 2 ^ 16).toNat

/-- The per-batch timestamp
`(uint32)(rte_get_tsc_cycles() / rte_get_tsc_hz())`: truncating uint64
division, then truncation to uint32. -/
def batchTimestamp (env : CaptureEnv) : Nat :=
  env.tscCycles / env.tscHz % 2 ^ 32

/-- One `packets[i]` record as the copy loop writes it from `bufs[i]`:
data pointer, `data_len`, `g_port_id` truncated to the uint8 `port`
field, and the shared batch timestamp. -/
def mkPacket (st : DpdkState) (timestamp : Nat) (m : Mbuf) : Packet :=
  { data := m.addr, length := m.dataLen,
    port := (st.g_port_id % 2 ^ 8).toNat, timestamp := timestamp }

/-- `dpdk_capture_packets(packets, max_packets)`.  `packetsNull` models
`packets == NULL`.  The burst receives at most `burstReq` frames (a
prefix of what is available on queue 0); a zero-frame burst returns 0;
otherwise each received frame is copied out with the shared batch
timestamp and the mbufs are freed.  Note the function reads or writes no
session global, so it takes no state transition. -/
def dpdk_capture_packets (st : DpdkState) (packetsNull : Bool) (max_packets : Int)
    (env : CaptureEnv) : CaptureResult :=
  if packetsNull = true ∨ max_packets ≤ 0 then
    { ret := -1, written := [], rxBurstCalled := false, rxBurstReq := 0 }
  else
    let req : Nat := burstReq st max_packets
    let bufs := env.avail.take req
    let nb_rx := bufs.length
    if nb_rx = 0 then
      { ret := 0, written := [], rxBurstCalled := true, rxBurstReq := req }
    else
      { ret := (nb_rx : Int)
        written := bufs.map (mkPacket st (batchTimestamp env))
        rxBurstCalled := true
        rxBurstReq := req }

/-- One driver call made by `port_init`, recorded in order.  The queue
setups record the queue index and the descriptor count asked of the
driver, and the adjust step records the ring sizes it was given to
adjust. -/
inductive PortStep where
  | infoGet : PortStep
  | configure (rx_rings tx_rings : Nat) : PortStep
  | adjust (nb_rxd nb_txd : Nat) : PortStep
  | rxQueueSetup (q nb_rxd : Nat) : PortStep
  | txQueueSetup (q nb_txd : Nat) : PortStep
  | start : PortStep
  | macGet : PortStep
  | promiscEnable : PortStep
  deriving Repr, DecidableEq

/-- Driver environment for one `port_init` call: the outcome of each
driver call on this port.  `adjRxd`/`adjTxd` are the descriptor counts
`rte_eth_dev_adjust_nb_rx_tx_desc` writes back through its pointers, and
the queue-setup return codes are indexed by queue number. -/
structure PortEnv where
  validPort : Bool
  infoRet : Int
  txFastFreeCapa : Bool
  configureRet : Int
  adjustRet : Int
  adjRxd : Nat
  adjTxd : Nat
  rxSetupRet : Nat → Int
  txSetupRet : Nat → Int
  startRet : Int
  macRet : Int
  promiscRet : Int

/-- The source's `for (q = 0; q < rings; q++) { retval = setup(q); if
(retval < 0) return retval; }` queue-setup loop, with the driver calls it
makes recorded.  `q` is the current index and the second argument the
remaining iterations. -/
def queueLoop (retOf : Nat → Int) (mk : Nat → PortStep) : Nat → Nat → Int × List PortStep
  | _, 0 => (0, [])
  | q, rem + 1 =>
    let r := retOf q
    if r < 0 then (r, [mk q])
    else
      let rest := queueLoop retOf mk (q + 1) rem
      (rest.1, mk q :: rest.2)

/-- `rx_rings` local constant of `port_init`. -/
def rx_rings : Nat := 1

/-- `tx_rings` local constant of `port_init`. -/
def tx_rings : Nat := 1

/-- `port_init(port, mbuf_pool)`: validity check, device-info query,
device configure with 1 RX / 1 TX ring, descriptor adjustment starting
from nb_rxd = nb_txd = 1024, one RX and one TX queue setup using the
adjusted counts, device start, MAC query, promiscuous enable.  Each
failing step returns its own error code at once.  Returns the C return
value and the ordered list of driver calls issued. -/
def port_init (port : Nat) (env : PortEnv) : Int × List PortStep :=
  let _ := port
  let nb_rxd : Nat := 1024
  let nb_txd : Nat := 1024
  if env.validPort = false then (-1, [])
  else if env.infoRet ≠ 0 then (env.infoRet, [.infoGet])
  else
    let pre : List PortStep := [.infoGet, .configure rx_rings tx_rings]
    if env.configureRet ≠ 0 then (env.configureRet, pre)
    else
      let pre := pre ++ [.adjust nb_rxd nb_txd]
      if env.adjustRet ≠ 0 then (env.adjustRet, pre)
      else
        let rxLoop := queueLoop env.rxSetupRet (fun q => .rxQueueSetup q env.adjRxd) 0 rx_rings
        if rxLoop.1 < 0 then (rxLoop.1, pre ++ rxLoop.2)
        else
          let pre := pre ++ rxLoop.2
          let txLoop := queueLoop env.txSetupRet (fun q => .txQueueSetup q env.adjTxd) 0 tx_rings
          if txLoop.1 < 0 then (txLoop.1, pre ++ txLoop.2)
          else
            let pre := pre ++ txLoop.2
            if env.startRet < 0 then (env.startRet, pre ++ [.start])
            else
              let pre := pre ++ [.start]
              if env.macRet ≠ 0 then (env.macRet, pre ++ [.macGet])
              else
                let pre := pre ++ [.macGet]
                if env.promiscRet ≠ 0 then (env.promiscRet, pre ++ [.promiscEnable])
                else (0, pre ++ [.promiscEnable])

/-- Driver environment for one `dpdk_init` call: the `rte_eal_init`
return code, the available-port count (`rte_eth_dev_count_avail`, a
uint16 stored into an `unsigned`), the handle returned by
`rte_pktmbuf_pool_create` (`none` for NULL), and the per-port driver
outcomes consumed by `port_init`. -/
structure InitEnv where
  ealRet : Int
  nbPorts : Nat
  poolHandle : Option Nat
  portEnv : PortEnv

/-- Result of one `dpdk_init` call: the C return value and the global
state after the call. -/
structure InitResult where
  ret : Int
  state : DpdkState

/-- `dpdk_init(port, cores, batch_size)`: EAL bring-up (-1 on failure),
available-port check (-2 when zero), port-range check (-3; the C
comparison `port >= nb_ports` converts the int `port` to unsigned, so a
negative port compares as `port mod 2^32`), then assignment of
`g_port_id` and the clamped `g_batch_size`, pool creation (-4 on NULL),
and `port_init` (-5 on nonzero).  The `cores` string is forwarded to the
EAL and does not otherwise influence this module. -/
def dpdk_init (st : DpdkState) (port : Int) (cores : String) (batch_size : Int)
    (env : InitEnv) : InitResult :=
  let _ := cores
  if env.ealRet < 0 then { ret := -1, state := st }
  else if env.nbPorts = 0 then { ret := -2, state := st }
  else if env.nbPorts ≤ (port % 2 ^ 32).toNat then { ret := -3, state := st }
  else
    let st := { st with
      g_port_id := port
      g_batch_size :=
        if 0 < batch_size ∧ batch_size ≤ MAX_PKT_BURST then batch_size else MAX_PKT_BURST }
    match env.poolHandle with
    | none => { ret := -4, state := st }
    | some h =>
      let st := { st with mbuf_pool := some h }
      if (port_init (st.g_port_id % 2 ^ 16).toNat env.portEnv).1 ≠ 0 then
        { ret := -5, state := st }
      else
        { ret := 0, state := st }

/-- One driver call made by `dpdk_cleanup`. -/
inductive CleanupStep where
  | devStop : CleanupStep
  | devClose : CleanupStep
  | ealCleanup : CleanupStep
  deriving Repr, DecidableEq

/-- Driver environment for one `dpdk_cleanup` call: whether
`rte_eth_dev_is_valid_port(g_port_id)` holds at that moment. -/
structure CleanupEnv where
  validPort : Bool
  deriving Repr, DecidableEq

/-- `dpdk_cleanup()`: stops and closes the port when it is still valid,
then cleans up the EAL.  It assigns none of the module's globals, so the
session state is returned unchanged alongside the driver calls made. -/
def dpdk_cleanup (st : DpdkState) (env : CleanupEnv) : DpdkState × List CleanupStep :=
  if env.validPort then (st, [.devStop, .devClose, .ealCleanup])
  else (st, [.ealCleanup])

/-- Driver environment for one `dpdk_get_stats` call: the return code of
`rte_eth_stats_get` and the counters it reports on success. -/
structure StatsEnv where
  statsRet : Int
  ipackets : Nat
  opackets : Nat
  ibytes : Nat
  obytes : Nat
  deriving Repr, DecidableEq

/-- Result of one `dpdk_get_stats` call: the C return value, the four
counters written through the out-pointers (`none` when the call failed
before reaching them), and whether `rte_eth_stats_get` was reached. -/
structure StatsResult where
  ret : Int
  counters : Option (Nat × Nat × Nat × Nat)
  driverQueried : Bool
  deriving Repr, DecidableEq

/-- `dpdk_get_stats(port, ...)`: rejects a port different from
`g_port_id` with -1 before touching the driver; otherwise queries
`rte_eth_stats_get` and copies ipackets/opackets/ibytes/obytes out
verbatim. -/
def dpdk_get_stats (st : DpdkState) (port : Int) (env : StatsEnv) : StatsResult :=
  if port ≠ st.g_port_id then
    { ret := -1, counters := none, driverQueried := false }
  else if env.statsRet ≠ 0 then
    { ret := env.statsRet, counters := none, driverQueried := true }
  else
    { ret := 0, counters := some (env.ipackets, env.opackets, env.ibytes, env.obytes),
      driverQueried := true }

/-- The range invariant on the configured batch size (claim C10). -/
abbrev batchInv (st : DpdkState) : Prop :=
  1 ≤ st.g_batch_size ∧ st.g_batch_size ≤ 32

/-- Sample all-success driver environment for `port_init`. -/
def okPortEnv : PortEnv :=
  { validPort := true, infoRet := 0, txFastFreeCapa := true, configureRet := 0,
    adjustRet := 0, adjRxd := 2048, adjTxd := 512,
    rxSetupRet := fun _ => 0, txSetupRet := fun _ => 0,
    startRet := 0, macRet := 0, promiscRet := 0 }

/-- Sample all-success driver environment for `dpdk_init`. -/
def okInitEnv : InitEnv :=
  { ealRet := 0, nbPorts := 2, poolHandle := some 1, portEnv := okPortEnv }

section Lemmas

/-- `capture_count` equals the integer minimum of its two arguments. -/
theorem capture_count_eq_min (st : DpdkState) (mp : Int) :
    capture_count st mp = min mp st.g_batch_size := by
  unfold capture_count
  split <;> omega

/-- Under the batch-size invariant and a positive request, the uint16
conversion at the burst call is the identity and `burstReq` is exactly
`min max_packets g_batch_size`. -/
theorem burstReq_eq_min (st : DpdkState) (mp : Int) (hb : batchInv st) (hmp : 0 < mp) :
    (burstReq st mp : Int) = min mp st.g_batch_size := by
  obtain ⟨hb1, hb2⟩ := hb
  unfold burstReq
  rw [capture_count_eq_min]
  have h0 : 0 ≤ min mp st.g_batch_size := by omega
  have h1 : min mp st.g_batch_size < 2 ^ 16 := by omega
  rw [Int.emod_eq_of_lt h0 h1, Int.toNat_of_nonneg h0]

/-- With a non-null output array and a positive `max_packets`, the
capture call reduces to the burst branch. -/
theorem capture_valid (st : DpdkState) (mp : Int) (env : CaptureEnv) (hmp : 0 < mp) :
    dpdk_capture_packets st false mp env =
      if (env.avail.take (burstReq st mp)).length = 0 then
        { ret := 0, written := [], rxBurstCalled := true, rxBurstReq := burstReq st mp }
      else
        { ret := ((env.avail.take (burstReq st mp)).length : Int)
          written := (env.avail.take (burstReq st mp)).map (mkPacket st (batchTimestamp env))
          rxBurstCalled := true
          rxBurstReq := burstReq st mp } := by
  unfold dpdk_capture_packets
  rw [if_neg (by simp only [Bool.false_eq_true, false_or]; omega)]

end Lemmas

/-- C1: on a session whose configured batch size lies in [1, 32], a
`capture(max_packets)` call with `max_packets > 0` and a valid output
array returns at most `min(max_packets, configured_batch_size)` packets:
both the return count and the number of packet records written obey the
bound. -/
theorem capture_returns_at_most_min_batch
    (st : DpdkState) (env : CaptureEnv) (max_packets : Int)
    (hb : batchInv st) (hmp : 0 < max_packets) :
    (dpdk_capture_packets st false max_packets env).ret
        ≤ min max_packets st.g_batch_size ∧
    ((dpdk_capture_packets st false max_packets env).written.length : Int)
        ≤ min max_packets st.g_batch_size := by
  have hreq := burstReq_eq_min st max_packets hb hmp
  have hmin : 1 ≤ min max_packets st.g_batch_size := by
    obtain ⟨hb1, hb2⟩ := hb; omega
  have htake : (env.avail.take (burstReq st max_packets)).length
      ≤ burstReq st max_packets := by
    rw [List.length_take]; omega
  rw [capture_valid st max_packets env hmp]
  split
  · constructor <;> dsimp <;> omega
  · constructor
    · dsimp; omega
    · dsimp; rw [List.length_map]; omega

/-- C1 witness: at batch size 32 and `max_packets = 5` with six frames
available, at most five packets come back. -/
theorem capture_returns_at_most_min_batch_witness :
    batchInv initialState ∧
    (dpdk_capture_packets initialState false 5
        ⟨[⟨1, 1⟩, ⟨2, 2⟩, ⟨3, 3⟩, ⟨4, 4⟩, ⟨5, 5⟩, ⟨6, 6⟩], 0, 1⟩).ret ≤ min 5 32 :=
  ⟨by decide,
    (capture_returns_at_most_min_batch initialState
      ⟨[⟨1, 1⟩, ⟨2, 2⟩, ⟨3, 3⟩, ⟨4, 4⟩, ⟨5, 5⟩, ⟨6, 6⟩], 0, 1⟩ 5 (by decide) (by decide)).1⟩

/-- C8: when no frames are available on the queue, `capture` with any
positive `max_packets` returns the empty, non-error result (return value
0, nothing written), after actually attempting the burst receive. -/
theorem capture_zero_frames_empty_success
    (st : DpdkState) (max_packets : Int) (cycles hz : Nat) (hmp : 0 < max_packets) :
    dpdk_capture_packets st false max_packets ⟨[], cycles, hz⟩ =
      { ret := 0, written := [], rxBurstCalled := true,
        rxBurstReq := burstReq st max_packets } := by
  rw [capture_valid st max_packets ⟨[], cycles, hz⟩ hmp]
  simp

/-- C8 witness: concrete empty-queue capture on the initial session. -/
theorem capture_zero_frames_empty_success_witness :
    dpdk_capture_packets initialState false 7 ⟨[], 3, 2⟩ =
      { ret := 0, written := [], rxBurstCalled := true, rxBurstReq := 7 } :=
  capture_zero_frames_empty_success initialState 7 3 2 (by decide)

/-- C9: a NULL output array is rejected with -1 — the same result,
including no hardware receive and no output written, as a non-positive
`max_packets`. -/
theorem capture_null_array_invalid_argument
    (st : DpdkState) (max_packets : Int) (env : CaptureEnv) :
    dpdk_capture_packets st true max_packets env =
      { ret := -1, written := [], rxBurstCalled := false, rxBurstReq := 0 } ∧
    (max_packets ≤ 0 →
      dpdk_capture_packets st false max_packets env =
        { ret := -1, written := [], rxBurstCalled := false, rxBurstReq := 0 }) := by
  constructor
  · unfold dpdk_capture_packets
    rw [if_pos (Or.inl rfl)]
  · intro h
    unfold dpdk_capture_packets
    rw [if_pos (Or.inr h)]

/-- C9 witness: the NULL-array rejection and the `max_packets = 0`
rejection coincide on a concrete session and environment. -/
theorem capture_null_array_invalid_argument_witness :
    dpdk_capture_packets initialState true 4 ⟨[⟨1, 1⟩], 0, 1⟩ =
      { ret := -1, written := [], rxBurstCalled := false, rxBurstReq := 0 } ∧
    dpdk_capture_packets initialState false 0 ⟨[⟨1, 1⟩], 0, 1⟩ =
      { ret := -1, written := [], rxBurstCalled := false, rxBurstReq := 0 } :=
  ⟨(capture_null_array_invalid_argument initialState 4 ⟨[⟨1, 1⟩], 0, 1⟩).1,
   (capture_null_array_invalid_argument initialState 0 ⟨[⟨1, 1⟩], 0, 1⟩).2 (by decide)⟩

/-- C2 counterexample: on the pristine, never-initialized session,
`capture` with a valid array and `max_packets = 1` is not rejected: it
reaches the hardware burst receive and returns 0, instead of failing
with a negative InvalidArgument error. -/
theorem capture_unconfigured_not_rejected :
    (dpdk_capture_packets initialState false 1 ⟨[], 0, 1⟩).ret = 0 ∧
    (dpdk_capture_packets initialState false 1 ⟨[], 0, 1⟩).rxBurstCalled = true := by
  constructor <;> rfl

/-- C2 (amended): `capture` fails with -1, without any hardware access,
whenever `max_packets <= 0`, for any session state; but it performs no
configured-session check — with a non-null array and a positive
`max_packets` it always proceeds to the hardware burst receive and
returns a non-negative count, even on a session that was never
initialized. -/
theorem capture_invalid_argument_exactly_on_bad_args
    (st : DpdkState) (packetsNull : Bool) (max_packets : Int) (env : CaptureEnv) :
    (max_packets ≤ 0 →
      (dpdk_capture_packets st packetsNull max_packets env).ret = -1 ∧
      (dpdk_capture_packets st packetsNull max_packets env).rxBurstCalled = false) ∧
    (packetsNull = false → 0 < max_packets →
      0 ≤ (dpdk_capture_packets st packetsNull max_packets env).ret ∧
      (dpdk_capture_packets st packetsNull max_packets env).rxBurstCalled = true) := by
  constructor
  · intro h
    unfold dpdk_capture_packets
    rw [if_pos (Or.inr h)]
    exact ⟨rfl, rfl⟩
  · rintro rfl hmp
    rw [capture_valid st max_packets env hmp]
    split
    · exact ⟨le_refl 0, rfl⟩
    · exact ⟨Int.natCast_nonneg _, rfl⟩

/-- C2 amended witness: `capture(-2)` on the initial session fails with
-1 and no hardware access. -/
theorem capture_invalid_argument_exactly_on_bad_args_witness :
    (dpdk_capture_packets initialState false (-2) ⟨[], 0, 1⟩).ret = -1 ∧
    (dpdk_capture_packets initialState false (-2) ⟨[], 0, 1⟩).rxBurstCalled = false :=
  (capture_invalid_argument_exactly_on_bad_args initialState false (-2)
    ⟨[], 0, 1⟩).1 (by decide)

/-- C7: every packet written by one `capture` call carries the same
timestamp, namely the cycle counter divided by the counter frequency
(truncating division, i.e. whole seconds) reduced to uint32. -/
theorem capture_shared_batch_timestamp
    (st : DpdkState) (max_packets : Int) (env : CaptureEnv) (hmp : 0 < max_packets) :
    ∀ p ∈ (dpdk_capture_packets st false max_packets env).written,
      p.timestamp = env.tscCycles / env.tscHz % 2 ^ 32 := by
  rw [capture_valid st max_packets env hmp]
  split
  · intro p hp
    simp at hp
  · intro p hp
    dsimp at hp
    obtain ⟨m, _, rfl⟩ := List.mem_map.mp hp
    rfl

/-- C7 witness: with cycle counter 10 and frequency 3, the one captured
packet has timestamp 10 / 3 % 2^32 = 3. -/
theorem capture_shared_batch_timestamp_witness :
    ({ data := 100, length := 60, port := 0, timestamp := 3 } : Packet).timestamp
      = 10 / 3 % 2 ^ 32 :=
  capture_shared_batch_timestamp initialState 1 ⟨[⟨100, 60⟩], 10, 3⟩ (by decide)
    { data := 100, length := 60, port := 0, timestamp := 3 } (by decide)

/-- C10: the configured batch size starts at 32, every `dpdk_init` call
leaves it in [1, 32] again, and under that invariant a `capture` call
requests at most 32 frames from the hardware burst and writes at most 32
packet records — so the 32-slot local mbuf array is never indexed out of
bounds. -/
theorem batch_size_invariant_and_bounds :
    batchInv initialState ∧
    (∀ (st : DpdkState) (port : Int) (cores : String) (batch_size : Int) (env : InitEnv),
      batchInv st → batchInv (dpdk_init st port cores batch_size env).state) ∧
    (∀ (st : DpdkState) (packetsNull : Bool) (max_packets : Int) (env : CaptureEnv),
      batchInv st →
        (dpdk_capture_packets st packetsNull max_packets env).rxBurstReq ≤ 32 ∧
        (dpdk_capture_packets st packetsNull max_packets env).written.length ≤ 32) := by
  refine ⟨by decide, ?_, ?_⟩
  · intro st port cores batch_size env hb
    unfold dpdk_init
    simp only [MAX_PKT_BURST]
    split
    · exact hb
    split
    · exact hb
    split
    · exact hb
    split <;> (split <;> try split) <;> constructor <;> dsimp <;> omega
  · intro st packetsNull max_packets env hb
    by_cases hg : packetsNull = true ∨ max_packets ≤ 0
    · unfold dpdk_capture_packets
      rw [if_pos hg]
      exact ⟨by dsimp; omega, by dsimp; omega⟩
    · push_neg at hg
      obtain ⟨hpn, hmp⟩ := hg
      have hpn' : packetsNull = false := by
        cases packetsNull
        · rfl
        · exact absurd rfl hpn
      subst hpn'
      have hreq := burstReq_eq_min st max_packets hb (by omega)
      have hreq32 : burstReq st max_packets ≤ 32 := by
        obtain ⟨hb1, hb2⟩ := hb; omega
      have htake : (env.avail.take (burstReq st max_packets)).length
          ≤ burstReq st max_packets := by
        rw [List.length_take]; omega
      rw [capture_valid st max_packets env (by omega)]
      split
      · exact ⟨hreq32, by dsimp; omega⟩
      · refine ⟨hreq32, ?_⟩
        dsimp
        rw [List.length_map]
        omega

/-- C10 witness: a wildly out-of-range `batch_size = 1000` is re-clamped
by `dpdk_init`, and a 100-packet request on the initial session asks the
burst for at most 32 frames. -/
theorem batch_size_invariant_and_bounds_witness :
    batchInv (dpdk_init initialState 0 "0-1" 1000 okInitEnv).state ∧
    (dpdk_capture_packets initialState false 100 ⟨[], 0, 1⟩).rxBurstReq ≤ 32 :=
  ⟨batch_size_invariant_and_bounds.2.1 initialState 0 "0-1" 1000 okInitEnv (by decide),
   (batch_size_invariant_and_bounds.2.2 initialState false 100 ⟨[], 0, 1⟩ (by decide)).1⟩

/-- C3: whenever `dpdk_init` reaches its configuration step (EAL up, at
least one port, port index in range), the batch size it stores lies in
[1, 32] = [1, MAX_PKT_BURST], and an input already in that range is
stored unchanged. -/
theorem init_clamps_batch_size
    (st : DpdkState) (port : Int) (cores : String) (batch_size : Int) (env : InitEnv)
    (heal : 0 ≤ env.ealRet) (hports : env.nbPorts ≠ 0)
    (hrange : (port % 2 ^ 32).toNat < env.nbPorts) :
    (1 ≤ (dpdk_init st port cores batch_size env).state.g_batch_size ∧
      (dpdk_init st port cores batch_size env).state.g_batch_size ≤ 32) ∧
    (1 ≤ batch_size → batch_size ≤ 32 →
      (dpdk_init st port cores batch_size env).state.g_batch_size = batch_size) := by
  unfold dpdk_init
  simp only [MAX_PKT_BURST]
  rw [if_neg (by omega), if_neg hports, if_neg (by omega)]
  constructor
  · split <;> (split <;> try split) <;> dsimp <;> omega
  · intro h1 h32
    rw [if_pos (by omega)]
    split <;> try split
    all_goals rfl

/-- C3 witness: `batch_size = 16` is stored unchanged, and the bounds
hold there. -/
theorem init_clamps_batch_size_witness :
    (0 : Int) ≤ okInitEnv.ealRet ∧
    (dpdk_init initialState 0 "0-1" 16 okInitEnv).state.g_batch_size ≤ 32 ∧
    (dpdk_init initialState 0 "0-1" 16 okInitEnv).state.g_batch_size = 16 :=
  ⟨by decide,
   (init_clamps_batch_size initialState 0 "0-1" 16 okInitEnv (by decide) (by decide)
      (by decide)).1.2,
   (init_clamps_batch_size initialState 0 "0-1" 16 okInitEnv (by decide) (by decide)
      (by decide)).2 (by decide) (by decide)⟩

/-- C4 counterexample: initialize a session, run `dpdk_cleanup`, and the
next `capture` with valid arguments still reaches the hardware burst
receive and returns 0, while `get_stats` on the configured port still
queries the driver and succeeds — neither fails with any session-closed
error; indeed cleanup leaves every session global exactly as it was. -/
theorem cleanup_not_absorbing_counterexample :
    (dpdk_capture_packets
        (dpdk_cleanup (dpdk_init initialState 0 "0-1" 16 okInitEnv).state ⟨true⟩).1
        false 1 ⟨[], 0, 1⟩).ret = 0 ∧
    (dpdk_capture_packets
        (dpdk_cleanup (dpdk_init initialState 0 "0-1" 16 okInitEnv).state ⟨true⟩).1
        false 1 ⟨[], 0, 1⟩).rxBurstCalled = true ∧
    (dpdk_get_stats
        (dpdk_cleanup (dpdk_init initialState 0 "0-1" 16 okInitEnv).state ⟨true⟩).1
        0 ⟨0, 5, 6, 7, 8⟩).ret = 0 ∧
    (dpdk_get_stats
        (dpdk_cleanup (dpdk_init initialState 0 "0-1" 16 okInitEnv).state ⟨true⟩).1
        0 ⟨0, 5, 6, 7, 8⟩).driverQueried = true ∧
    (dpdk_cleanup (dpdk_init initialState 0 "0-1" 16 okInitEnv).state ⟨true⟩).1
      = (dpdk_init initialState 0 "0-1" 16 okInitEnv).state := by
  refine ⟨rfl, rfl, rfl, rfl, rfl⟩

/-- C4 (amended): `dpdk_cleanup` records no termination state: it leaves
every session global unchanged, so a second cleanup behaves exactly like
the first (same driver calls under the same driver conditions, in
particular no crash in this model), and later calls are governed solely
by their argument checks — `capture` with a valid array and positive
`max_packets` still attempts the hardware burst receive, and `get_stats`
on the configured port still queries the driver. -/
theorem cleanup_records_no_state
    (st : DpdkState) (ce : CleanupEnv) (env : CaptureEnv) (se : StatsEnv)
    (max_packets : Int) (hmp : 0 < max_packets) :
    (dpdk_cleanup st ce).1 = st ∧
    dpdk_cleanup (dpdk_cleanup st ce).1 ce = dpdk_cleanup st ce ∧
    (dpdk_capture_packets (dpdk_cleanup st ce).1 false max_packets env).rxBurstCalled
      = true ∧
    (dpdk_get_stats (dpdk_cleanup st ce).1 st.g_port_id se).driverQueried = true := by
  have hfst : (dpdk_cleanup st ce).1 = st := by
    unfold dpdk_cleanup
    split <;> rfl
  refine ⟨hfst, by rw [hfst], ?_, ?_⟩
  · rw [hfst, capture_valid st max_packets env hmp]
    split <;> rfl
  · rw [hfst]
    unfold dpdk_get_stats
    rw [if_neg (by simp)]
    split <;> rfl

/-- C4 amended witness: concrete post-cleanup capture on the initial
session attempts the burst receive. -/
theorem cleanup_records_no_state_witness :
    (dpdk_capture_packets (dpdk_cleanup initialState ⟨false⟩).1
        false 3 ⟨[], 0, 1⟩).rxBurstCalled = true :=
  (cleanup_records_no_state initialState ⟨false⟩ ⟨[], 0, 1⟩ ⟨0, 0, 0, 0, 0⟩ 3
    (by decide)).2.2.1

/-- C5: `get_stats(port)` with a port different from the session's
configured port fails with -1 before any driver query — independently of
everything else in the session state, hence of any prior captures (which
modify no session global); with the matching port and a successful driver
query it returns the four driver counters verbatim. -/
theorem get_stats_port_mismatch_and_verbatim
    (st : DpdkState) (port : Int) (env : StatsEnv) :
    (port ≠ st.g_port_id →
      dpdk_get_stats st port env =
        { ret := -1, counters := none, driverQueried := false }) ∧
    (port = st.g_port_id → env.statsRet = 0 →
      dpdk_get_stats st port env =
        { ret := 0,
          counters := some (env.ipackets, env.opackets, env.ibytes, env.obytes),
          driverQueried := true }) := by
  constructor
  · intro h
    unfold dpdk_get_stats
    rw [if_pos h]
  · intro h h0
    unfold dpdk_get_stats
    rw [if_neg (by simp [h]), if_neg (by simp [h0])]

/-- C5 witness: on the initial session (configured port 0), port 3 is
rejected with -1 and port 0 returns the driver counters. -/
theorem get_stats_port_mismatch_and_verbatim_witness :
    dpdk_get_stats initialState 3 ⟨0, 11, 22, 33, 44⟩ =
      { ret := -1, counters := none, driverQueried := false } ∧
    dpdk_get_stats initialState 0 ⟨0, 11, 22, 33, 44⟩ =
      { ret := 0, counters := some (11, 22, 33, 44), driverQueried := true } :=
  ⟨(get_stats_port_mismatch_and_verbatim initialState 3 ⟨0, 11, 22, 33, 44⟩).1 (by decide),
   (get_stats_port_mismatch_and_verbatim initialState 0 ⟨0, 11, 22, 33, 44⟩).2
     (by decide) (by decide)⟩

/-- A single-iteration queue-setup loop performs exactly one setup call
and aborts with its code when it is negative. -/
theorem queueLoop_one (retOf : Nat → Int) (mk : Nat → PortStep) :
    queueLoop retOf mk 0 1 =
      if retOf 0 < 0 then (retOf 0, [mk 0]) else (0, [mk 0]) := by
  show (if retOf 0 < 0 then (retOf 0, [mk 0])
      else ((queueLoop retOf mk 1 0).1, mk 0 :: (queueLoop retOf mk 1 0).2)) = _
  split <;> rfl

/-- C6: `port_init` sets up exactly one receive queue and one transmit
queue, both using the driver's adjusted descriptor counts obtained by
adjusting the 1024/1024 defaults; when every step succeeds it returns 0
having issued exactly the eight driver calls in order, and when a step
fails it returns that step's own error code with no later driver call
issued. -/
theorem port_init_single_queue_adjusted_desc_early_abort (port : Nat) (env : PortEnv) :
    (env.validPort = true → env.infoRet = 0 → env.configureRet = 0 → env.adjustRet = 0 →
      ¬ env.rxSetupRet 0 < 0 → ¬ env.txSetupRet 0 < 0 → ¬ env.startRet < 0 →
      env.macRet = 0 → env.promiscRet = 0 →
      port_init port env =
        (0, [.infoGet, .configure 1 1, .adjust 1024 1024,
          .rxQueueSetup 0 env.adjRxd, .txQueueSetup 0 env.adjTxd,
          .start, .macGet, .promiscEnable])) ∧
    (env.validPort = false → port_init port env = (-1, [])) ∧
    (env.validPort = true → env.infoRet ≠ 0 →
      port_init port env = (env.infoRet, [.infoGet])) ∧
    (env.validPort = true → env.infoRet = 0 → env.configureRet ≠ 0 →
      port_init port env = (env.configureRet, [.infoGet, .configure 1 1])) ∧
    (env.validPort = true → env.infoRet = 0 → env.configureRet = 0 → env.adjustRet ≠ 0 →
      port_init port env =
        (env.adjustRet, [.infoGet, .configure 1 1, .adjust 1024 1024])) ∧
    (env.validPort = true → env.infoRet = 0 → env.configureRet = 0 → env.adjustRet = 0 →
      env.rxSetupRet 0 < 0 →
      port_init port env =
        (env.rxSetupRet 0, [.infoGet, .configure 1 1, .adjust 1024 1024,
          .rxQueueSetup 0 env.adjRxd])) ∧
    (env.validPort = true → env.infoRet = 0 → env.configureRet = 0 → env.adjustRet = 0 →
      ¬ env.rxSetupRet 0 < 0 → env.txSetupRet 0 < 0 →
      port_init port env =
        (env.txSetupRet 0, [.infoGet, .configure 1 1, .adjust 1024 1024,
          .rxQueueSetup 0 env.adjRxd, .txQueueSetup 0 env.adjTxd])) ∧
    (env.validPort = true → env.infoRet = 0 → env.configureRet = 0 → env.adjustRet = 0 →
      ¬ env.rxSetupRet 0 < 0 → ¬ env.txSetupRet 0 < 0 → env.startRet < 0 →
      port_init port env =
        (env.startRet, [.infoGet, .configure 1 1, .adjust 1024 1024,
          .rxQueueSetup 0 env.adjRxd, .txQueueSetup 0 env.adjTxd, .start])) ∧
    (env.validPort = true → env.infoRet = 0 → env.configureRet = 0 → env.adjustRet = 0 →
      ¬ env.rxSetupRet 0 < 0 → ¬ env.txSetupRet 0 < 0 → ¬ env.startRet < 0 →
      env.macRet ≠ 0 →
      port_init port env =
        (env.macRet, [.infoGet, .configure 1 1, .adjust 1024 1024,
          .rxQueueSetup 0 env.adjRxd, .txQueueSetup 0 env.adjTxd, .start, .macGet])) ∧
    (env.validPort = true → env.infoRet = 0 → env.configureRet = 0 → env.adjustRet = 0 →
      ¬ env.rxSetupRet 0 < 0 → ¬ env.txSetupRet 0 < 0 → ¬ env.startRet < 0 →
      env.macRet = 0 → env.promiscRet ≠ 0 →
      port_init port env =
        (env.promiscRet, [.infoGet, .configure 1 1, .adjust 1024 1024,
          .rxQueueSetup 0 env.adjRxd, .txQueueSetup 0 env.adjTxd, .start, .macGet,
          .promiscEnable])) := by
  refine ⟨?_, ?_, ?_, ?_, ?_, ?_, ?_, ?_, ?_, ?_⟩ <;>
    intros <;>
    simp_all [port_init, rx_rings, tx_rings, queueLoop_one] <;>
    split_ifs <;>
    simp_all <;>
    omega

/-- C6 witness: with every driver call succeeding and adjusted
descriptor counts 2048/512, `port_init` returns 0 and issues exactly the
eight calls in order, including one RX queue setup with 2048 descriptors
and one TX queue setup with 512. -/
theorem port_init_single_queue_adjusted_desc_early_abort_witness :
    port_init 0 okPortEnv =
      (0, [.infoGet, .configure 1 1, .adjust 1024 1024,
        .rxQueueSetup 0 2048, .txQueueSetup 0 512, .start, .macGet, .promiscEnable]) :=
  (port_init_single_queue_adjusted_desc_early_abort 0 okPortEnv).1
    rfl rfl rfl rfl (by decide) (by decide) (by decide) rfl rfl

end DpdkCapture
